import Mathlib

/-!
Shallow embedding of the aguis/quickfeed authentication and
provider-abstraction layer: the `ag` user model and its identity-stripping
transforms (`src/ag/util.go`), the SCM client factory (`src/scm/scm.go`),
and the HTTP handlers for users and courses (`src/unnamed/part_000`,
`src/web/courses.go`).  Go structs become Lean structures, pointer mutation
becomes functional update, and fallible Go calls (`(T, error)` returns)
become `Except`.
-/

namespace Ag

/-- Modelled from the spec: a RemoteIdentity carries a provider name, the
provider-side user id and the current access token (the `models` /
protobuf-generated struct is not under `src/`; only its methods in
`src/ag/util.go` are). -/
structure RemoteIdentity where
  provider : String
  remoteID : Nat
  accessToken : String
deriving Repr, DecidableEq

/-- Modelled from the spec: a User is a local identity (numeric id plus
profile data, here a name) owning zero or more RemoteIdentity records; the
struct itself is not under `src/`. -/
structure User where
  id : Nat
  name : String
  remoteIdentities : List RemoteIdentity
deriving Repr, DecidableEq

/-- Modelled from the spec: the `Users` collection wraps a list of users
(its `GetUsers` accessor is used by `src/ag/util.go`). -/
structure Users where
  users : List User
deriving Repr, DecidableEq

/-- Modelled from the spec: a `Group` holds a member list of users (its
`GetUsers` accessor is used by `src/ag/util.go`). -/
structure Group where
  id : Nat
  name : String
  users : List User
deriving Repr, DecidableEq

/-- Modelled from the spec: the `Groups` collection wraps a list of groups
(its `GetGroups` accessor is used by `src/ag/util.go`). -/
structure Groups where
  groups : List Group
deriving Repr, DecidableEq

/-- `src/ag/util.go` `(*User).RemoveRemoteID`: replaces the RemoteIdentities slice of the user with a freshly made empty slice. -/
def User.RemoveRemoteID (u : User) : User :=
  { u with remoteIdentities := [] }

/-- `src/ag/util.go` `(*Users).RemoveRemoteIDs`: applies `RemoveRemoteID`
to every user in the collection (Go mutates through the `*User` pointers;
here the in-place loop becomes a map). -/
def Users.RemoveRemoteIDs (us : Users) : Users :=
  { us with users := us.users.map User.RemoveRemoteID }

/-- `src/ag/util.go` `(*Group).RemoveRemoteIDs`: applies `RemoveRemoteID`
to every member of the group. -/
def Group.RemoveRemoteIDs (g : Group) : Group :=
  { g with users := g.users.map User.RemoveRemoteID }

/-- `src/ag/util.go` `(*Groups).RemoveRemoteIDs`: applies the group-level
transform to every group in the collection. -/
def Groups.RemoveRemoteIDs (gs : Groups) : Groups :=
  { gs with groups := gs.groups.map Group.RemoveRemoteIDs }

/-- The access tokens reachable from a user: one per RemoteIdentity. -/
def User.tokens (u : User) : List String :=
  u.remoteIdentities.map RemoteIdentity.accessToken

end Ag

namespace Scm

/-- `src/scm/scm.go` `Directory`: normalized view of a provider
organization/group. -/
structure Directory where
  id : Nat
  name : String
  avatar : String
deriving Repr, DecidableEq

/-- The concrete SCM clients the factory in `src/scm/scm.go` can return:
one adapter per provider, each holding the access token of the caller
(`NewGithubSCMClient` / `NewGitlabSCMClient`; the adapter internals are not
needed by the factory contract). -/
inductive SCMClientImpl where
  | githubClient (token : String)
  | gitlabClient (token : String)
deriving Repr, DecidableEq

/-- `src/scm/scm.go` `NewSCMClient`: switches on the provider name,
returning a GitHub or GitLab adapter, and fails with an
invalid-provider error on every other name. -/
def NewSCMClient (provider token : String) : Except String SCMClientImpl :=
  match provider with
  | "github" => .ok (.githubClient token)
  | "gitlab" => .ok (.gitlabClient token)
  | _ => .error ("invalid provider: " ++ provider)

end Scm

namespace Web

/-- Database errors as the handlers distinguish them: the gorm
`ErrRecordNotFound` error versus any other failure. -/
inductive DBError where
  | recordNotFound
  | other (msg : String)
deriving Repr, DecidableEq

/-- `strconv.ParseUint(s, 10, 64)`: succeeds exactly on non-empty strings
of decimal digits whose value fits in 64 bits; an empty or malformed
string (and in particular an absent query/path parameter, which echo
surfaces as the empty string) is an error. -/
def parseUint (s : String) : Option Nat :=
  let cs := s.data
  if cs.isEmpty then none
  else if cs.all Char.isDigit then
    let n := cs.foldl (fun acc c => acc * 10 + (c.toNat - 48)) 0
    if n < 2 ^ 64 then some n else none
  else none

/-- The observable outcomes of the `GetUser` handler in
`src/unnamed/part_000`: a 400 HTTPError for a bad id, `c.NoContent(404)`
(empty body) when the record is absent, a propagated database error,
or `c.JSONPretty` of the user at status 302 (`http.StatusFound`). -/
inductive GetUserResult where
  | badRequest (msg : String)
  | notFoundEmpty
  | dbFailure (msg : String)
  | jsonUser (status : Nat) (u : Ag.User)
deriving Repr, DecidableEq

/-- `src/unnamed/part_000` `GetUser`: parses the `:id` path parameter,
rejects a parse failure or id 0 with 400, maps `ErrRecordNotFound` to an
empty 404, propagates other database errors, and otherwise serializes the
user returned by `db.GetUser` unchanged. -/
def GetUser (db : Nat → Except DBError Ag.User) (idParam : String) :
    GetUserResult :=
  match parseUint idParam with
  | none => .badRequest "invalid user id"
  | some id =>
    if id = 0 then .badRequest "invalid user id"
    else
      match db id with
      | .error .recordNotFound => .notFoundEmpty
      | .error (.other m) => .dbFailure m
      | .ok user => .jsonUser 302 user

/-- The observable outcomes of the `GetUsers` handler in
`src/unnamed/part_000`. -/
inductive GetUsersResult where
  | notFoundEmpty
  | dbFailure (msg : String)
  | jsonUsers (status : Nat) (us : List Ag.User)
deriving Repr, DecidableEq

/-- `src/unnamed/part_000` `GetUsers`: maps `ErrRecordNotFound` to an
empty 404, propagates other database errors, and otherwise serializes the
user list returned by `db.GetUsers` unchanged at status 302. -/
def GetUsers (dbResult : Except DBError (List Ag.User)) : GetUsersResult :=
  match dbResult with
  | .error .recordNotFound => .notFoundEmpty
  | .error (.other m) => .dbFailure m
  | .ok users => .jsonUsers 302 users

/-- `src/web/courses.go` `models.Course` as the handler builds it
(the `models` package is not under `src/`; the field set is the one the
handler assigns plus the id gorm fills in on insert). -/
structure Course where
  id : Nat
  name : String
  code : String
  year : Nat
  tag : String
  provider : String
  directoryID : Nat
deriving Repr, DecidableEq

/-- `src/web/courses.go` `NewCourseRequest`. -/
structure NewCourseRequest where
  name : String
  code : String
  year : Nat
  tag : String
  provider : String
  directoryID : Nat
deriving Repr, DecidableEq

/-- `src/web/courses.go` `(*NewCourseRequest).valid` (the receiver is
never nil when called from `NewCourse`, so the nil conjunct is dropped). -/
def NewCourseRequest.valid (cr : NewCourseRequest) : Bool :=
  cr.name != "" &&
  cr.code != "" &&
  (cr.provider == "github" || cr.provider == "gitlab") &&
  cr.directoryID != 0 &&
  cr.year != 0 &&
  cr.tag != ""

/-- The observable outcomes of the `ListCourses` handler in
`src/web/courses.go`: a propagated error (from `strconv.ParseUint` or the
database) or `c.JSONPretty` of a course list at status 200. -/
inductive ListCoursesResult where
  | errorOut (msg : String)
  | jsonCourses (status : Nat) (cs : List Course)
deriving Repr, DecidableEq

/-- `src/web/courses.go` `ListCourses`: parses the `user` query parameter
with `strconv.ParseUint` (an absent parameter is the empty string and is a
parse error, which the handler returns), then serves
`db.GetCoursesForUser(id)` when the id is positive and `db.GetCourses()`
otherwise. -/
def ListCourses (getCoursesForUser : Nat → Except DBError (List Course))
    (getCourses : Except DBError (List Course)) (userParam : String) :
    ListCoursesResult :=
  match parseUint userParam with
  | none => .errorOut "strconv.ParseUint: invalid syntax"
  | some id =>
    if 0 < id then
      match getCoursesForUser id with
      | .error .recordNotFound => .errorOut "record not found"
      | .error (.other m) => .errorOut m
      | .ok cs => .jsonCourses 200 cs
    else
      match getCourses with
      | .error .recordNotFound => .errorOut "record not found"
      | .error (.other m) => .errorOut m
      | .ok cs => .jsonCourses 200 cs

/-- The SCM client placed on the request context by the access-control
middleware, reduced to the one capability `NewCourse` uses: `GetDirectory`
(the github/gitlab adapter bodies are not under `src/`; per the spec it
fetches a directory by provider-native numeric id or fails). -/
structure SCMStub where
  GetDirectory : Nat → Except String Scm.Directory

/-- The course table together with a flag for a failing insert; the gorm-backed
`CreateCourse` fills in the id of the new row on success and persists nothing
on failure. -/
structure CourseDB where
  courses : List Course
  insertFails : Bool
deriving Repr, DecidableEq

/-- `db.CreateCourse`: on success assigns a fresh positive id, appends the
row and returns the stored course; on failure leaves the table unchanged. -/
def CourseDB.CreateCourse (db : CourseDB) (c : Course) :
    Except String (Course × CourseDB) :=
  if db.insertFails then .error "could not create course"
  else
    let created := { c with id := db.courses.length + 1 }
    .ok (created, { db with courses := db.courses ++ [created] })

/-- The observable outcomes of the `NewCourse` handler in
`src/web/courses.go`. -/
inductive NewCourseResult where
  | errorOut (msg : String)
  | httpError (status : Nat) (msg : String)
  | jsonCourse (status : Nat) (c : Course)
deriving Repr, DecidableEq

/-- A `NewCourse` run: the response, the database state after the run, and
whether `db.CreateCourse` was invoked at all. -/
structure NewCourseOut where
  result : NewCourseResult
  db : CourseDB
  createCalled : Bool
deriving Repr, DecidableEq

/-- `src/web/courses.go` `NewCourse`: binds the request body, rejects an
invalid payload with 400, rejects an unregistered provider with 400,
checks that the directory exists via `GetDirectory` on the context client
(propagating its error), and only then builds the course from the request
fields — with `DirectoryID` taken from the fetched directory — and calls
`db.CreateCourse`, answering 201 with the stored course. -/
def NewCourse (bound : Except String NewCourseRequest)
    (getClient : String → Option SCMStub) (db : CourseDB) : NewCourseOut :=
  match bound with
  | .error e => ⟨.errorOut e, db, false⟩
  | .ok cr =>
    if ¬ cr.valid then ⟨.httpError 400 "invalid payload", db, false⟩
    else
      match getClient cr.provider with
      | none =>
        ⟨.httpError 400 ("provider " ++ cr.provider ++ " not registered"),
          db, false⟩
      | some s =>
        match s.GetDirectory cr.directoryID with
        | .error e => ⟨.errorOut e, db, false⟩
        | .ok directory =>
          let course : Course :=
            { id := 0, name := cr.name, code := cr.code, year := cr.year,
              tag := cr.tag, provider := cr.provider,
              directoryID := directory.id }
          match db.CreateCourse course with
          | .error e => ⟨.errorOut e, db, true⟩
          | .ok (c, db2) => ⟨.jsonCourse 201 c, db2, true⟩

end Web


/-- C8: for every User, Users, Group and Groups value, whatever the number
of RemoteIdentity records each contained user holds, after applying the
identity-stripping transform every contained user has an empty
RemoteIdentities collection. -/
theorem RemoveRemoteIDs_empties_all (u : Ag.User) (us : Ag.Users)
    (g : Ag.Group) (gs : Ag.Groups) :
    u.RemoveRemoteID.remoteIdentities = [] ∧
    (∀ v ∈ us.RemoveRemoteIDs.users, v.remoteIdentities = []) ∧
    (∀ v ∈ g.RemoveRemoteIDs.users, v.remoteIdentities = []) ∧
    (∀ h ∈ gs.RemoveRemoteIDs.groups, ∀ v ∈ h.users,
      v.remoteIdentities = []) := by
  refine ⟨rfl, ?_, ?_, ?_⟩
  · intro v hv
    simp only [Ag.Users.RemoveRemoteIDs, List.mem_map] at hv
    obtain ⟨w, _, rfl⟩ := hv
    rfl
  · intro v hv
    simp only [Ag.Group.RemoveRemoteIDs, List.mem_map] at hv
    obtain ⟨w, _, rfl⟩ := hv
    rfl
  · intro h hh v hv
    simp only [Ag.Groups.RemoveRemoteIDs, List.mem_map] at hh
    obtain ⟨g0, _, rfl⟩ := hh
    simp only [Ag.Group.RemoveRemoteIDs, List.mem_map] at hv
    obtain ⟨w, _, rfl⟩ := hv
    rfl

/-- Witness for C8: the transform empties the identity lists of concrete
users holding zero, one and two RemoteIdentity records. -/
theorem RemoveRemoteIDs_empties_all_witness :
    ∀ v ∈ (Ag.Users.RemoveRemoteIDs
      ⟨[⟨1, "a", []⟩, ⟨2, "b", [⟨"github", 5, "t1"⟩]⟩,
        ⟨3, "c", [⟨"github", 6, "t2"⟩, ⟨"gitlab", 7, "t3"⟩]⟩]⟩).users,
      v.remoteIdentities = [] := by
  intro v hv
  exact (RemoveRemoteIDs_empties_all ⟨0, "", []⟩
    ⟨[⟨1, "a", []⟩, ⟨2, "b", [⟨"github", 5, "t1"⟩]⟩,
      ⟨3, "c", [⟨"github", 6, "t2"⟩, ⟨"gitlab", 7, "t3"⟩]⟩]⟩
    ⟨0, "", []⟩ ⟨[]⟩).2.1 v hv

/-- C10: the identity-stripping transform is a frame: on a single User it
changes only the RemoteIdentities field (to the empty list), and the
collection-level variants keep every group field and every other user
field (id, name) of every contained user unchanged, in order. -/
theorem RemoveRemoteID_frame (u : Ag.User) (us : Ag.Users)
    (g : Ag.Group) (gs : Ag.Groups) :
    u.RemoveRemoteID.id = u.id ∧
    u.RemoveRemoteID.name = u.name ∧
    u.RemoveRemoteID.remoteIdentities = [] ∧
    us.RemoveRemoteIDs.users.map (fun v => (v.id, v.name)) =
      us.users.map (fun v => (v.id, v.name)) ∧
    g.RemoveRemoteIDs.id = g.id ∧
    g.RemoveRemoteIDs.name = g.name ∧
    g.RemoveRemoteIDs.users.map (fun v => (v.id, v.name)) =
      g.users.map (fun v => (v.id, v.name)) ∧
    gs.RemoveRemoteIDs.groups.map (fun h => (h.id, h.name)) =
      gs.groups.map (fun h => (h.id, h.name)) ∧
    gs.RemoveRemoteIDs.groups.map (fun h => h.users.map (fun v => (v.id, v.name))) =
      gs.groups.map (fun h => h.users.map (fun v => (v.id, v.name))) := by
  refine ⟨rfl, rfl, rfl, ?_, rfl, rfl, ?_, ?_, ?_⟩ <;>
  simp [Ag.Users.RemoveRemoteIDs, Ag.Group.RemoveRemoteIDs,
    Ag.Groups.RemoveRemoteIDs, Ag.User.RemoveRemoteID, List.map_map,
    Function.comp]

/-- C1 (code divergence): the `GetUser` handler serializes the user
exactly as loaded from the database, without applying `RemoveRemoteID`;
at a database holding user 1 with one GitHub RemoteIdentity the response
payload carries that RemoteIdentity, access token included. -/
theorem GetUser_serializes_access_token :
    Web.GetUser
      (fun i =>
        if i = 1 then
          .ok ⟨1, "alice", [⟨"github", 7, "secret-token"⟩]⟩
        else .error .recordNotFound) "1"
      = .jsonUser 302 ⟨1, "alice", [⟨"github", 7, "secret-token"⟩]⟩ ∧
    Ag.User.tokens ⟨1, "alice", [⟨"github", 7, "secret-token"⟩]⟩
      = ["secret-token"] := by
  exact ⟨by decide, rfl⟩

/-- C7: for every positive user id absent from the database (the lookup
fails with ErrRecordNotFound), the `GetUser` handler answers 404 with an
empty body. -/
theorem GetUser_absent_id_404 (db : Nat → Except Web.DBError Ag.User)
    (s : String) (id : Nat) (hp : Web.parseUint s = some id) (hpos : 0 < id)
    (habs : db id = .error .recordNotFound) :
    Web.GetUser db s = .notFoundEmpty := by
  unfold Web.GetUser
  rw [hp]
  dsimp only
  rw [if_neg (by omega : ¬ id = 0), habs]

/-- Witness for C7: id 7 is positive, parses from the path parameter "7",
and is absent from the everywhere-empty database, so the handler answers
an empty 404. -/
theorem GetUser_absent_id_404_witness :
    Web.GetUser (fun _ => .error .recordNotFound) "7" = .notFoundEmpty :=
  GetUser_absent_id_404 (fun _ => .error .recordNotFound) "7" 7
    (by decide) (by decide) rfl

/-- C5 (counterexample): the factory has no case for the registered
provider name "fake"; `NewSCMClient` on it returns an error and no
client, refuting the claim that every registered provider name yields a
client. -/
theorem NewSCMClient_fake_errors :
    Scm.NewSCMClient "fake" "some-token" = .error "invalid provider: fake" :=
  rfl

/-- C5 (amended): `NewSCMClient` is keyed by provider name, but only
"github" and "gitlab" are known to it: each returns the matching adapter
holding the given token and no error, while every other name — the
registered auth provider "fake" included — fails with an invalid-provider
error and returns no client. -/
theorem NewSCMClient_keyed (provider token : String) :
    (provider = "github" →
      Scm.NewSCMClient provider token = .ok (.githubClient token)) ∧
    (provider = "gitlab" →
      Scm.NewSCMClient provider token = .ok (.gitlabClient token)) ∧
    (provider ≠ "github" → provider ≠ "gitlab" →
      Scm.NewSCMClient provider token
        = .error ("invalid provider: " ++ provider)) := by
  refine ⟨?_, ?_, ?_⟩
  · rintro rfl
    rfl
  · rintro rfl
    rfl
  · intro h1 h2
    unfold Scm.NewSCMClient
    split
    · exact absurd rfl h1
    · exact absurd rfl h2
    · rfl

/-- Witness for C5 (amended): at provider "github" the factory returns the
GitHub adapter carrying the token. -/
theorem NewSCMClient_keyed_witness :
    Scm.NewSCMClient "github" "tok" = .ok (.githubClient "tok") :=
  (NewSCMClient_keyed "github" "tok").1 rfl

/-- C6 (counterexample): with the `user` query parameter absent (echo
yields the empty string), `strconv.ParseUint` fails and `ListCourses`
returns that error instead of the full course list, refuting the claim
that an absent parameter returns all courses. -/
theorem ListCourses_absent_user_param_errors :
    Web.ListCourses (fun _ => .ok [])
      (.ok [⟨1, "DAT320", "DAT320", 2024, "Fall", "github", 42⟩]) ""
      = .errorOut "strconv.ParseUint: invalid syntax" := by
  decide

/-- C6 (amended): the `user` query parameter is mandatory in practice: a
value that does not parse as an unsigned integer (in particular an absent
parameter, which is the empty string) makes the handler return the parse
error; the value 0 returns all courses; a positive user id returns only
the courses of that user. -/
theorem ListCourses_filter (fU : Nat → Except Web.DBError (List Web.Course))
    (fA : Except Web.DBError (List Web.Course)) (s : String) :
    (Web.parseUint s = none →
      Web.ListCourses fU fA s
        = .errorOut "strconv.ParseUint: invalid syntax") ∧
    (Web.parseUint s = some 0 → ∀ cs, fA = .ok cs →
      Web.ListCourses fU fA s = .jsonCourses 200 cs) ∧
    (∀ id, Web.parseUint s = some id → 0 < id → ∀ cs, fU id = .ok cs →
      Web.ListCourses fU fA s = .jsonCourses 200 cs) := by
  refine ⟨?_, ?_, ?_⟩
  · intro h
    unfold Web.ListCourses
    rw [h]
  · intro h cs hcs
    unfold Web.ListCourses
    rw [h]
    dsimp only
    rw [if_neg (by omega : ¬ 0 < 0), hcs]
  · intro id h hpos cs hcs
    unfold Web.ListCourses
    rw [h]
    dsimp only
    rw [if_pos hpos, hcs]

/-- Witness for C6 (amended): the parameter value "0" returns the full
course list. -/
theorem ListCourses_filter_witness :
    Web.ListCourses (fun _ => .ok [])
      (.ok [⟨1, "DAT320", "DAT320", 2024, "Fall", "github", 42⟩]) "0"
      = .jsonCourses 200 [⟨1, "DAT320", "DAT320", 2024, "Fall", "github", 42⟩] :=
  (ListCourses_filter (fun _ => .ok [])
    (.ok [⟨1, "DAT320", "DAT320", 2024, "Fall", "github", 42⟩]) "0").2.1
    (by decide) _ rfl

/-- C2: in `NewCourse`, `db.CreateCourse` is invoked only after
`GetDirectory` on the context SCM client has returned successfully for
the requested directory id, and when `GetDirectory` or any earlier step
(body binding, payload validation, provider lookup) fails, the course
table is left unchanged and `CreateCourse` is never invoked. -/
theorem NewCourse_directory_atomicity
    (bound : Except String Web.NewCourseRequest)
    (getClient : String → Option Web.SCMStub) (db : Web.CourseDB) :
    ((Web.NewCourse bound getClient db).createCalled = true →
      ∃ cr s d, bound = .ok cr ∧ cr.valid = true ∧
        getClient cr.provider = some s ∧
        s.GetDirectory cr.directoryID = .ok d) ∧
    ((¬ ∃ cr s d, bound = .ok cr ∧ cr.valid = true ∧
        getClient cr.provider = some s ∧
        s.GetDirectory cr.directoryID = .ok d) →
      (Web.NewCourse bound getClient db).db = db ∧
      (Web.NewCourse bound getClient db).createCalled = false) := by
  cases bound with
  | error e =>
    exact ⟨fun h => by simp [Web.NewCourse] at h, fun _ => ⟨rfl, rfl⟩⟩
  | ok cr =>
    by_cases hv : cr.valid = true
    · cases hgc : getClient cr.provider with
      | none =>
        constructor
        · intro h
          simp [Web.NewCourse, hv, hgc] at h
        · intro _
          simp [Web.NewCourse, hv, hgc]
      | some s =>
        cases hgd : s.GetDirectory cr.directoryID with
        | error e =>
          constructor
          · intro h
            simp [Web.NewCourse, hv, hgc, hgd] at h
          · intro _
            simp [Web.NewCourse, hv, hgc, hgd]
        | ok d =>
          constructor
          · intro _
            exact ⟨cr, s, d, rfl, hv, hgc, hgd⟩
          · intro hne
            exact absurd ⟨cr, s, d, rfl, hv, hgc, hgd⟩ hne
    · constructor
      · intro h
        simp [Web.NewCourse, hv] at h
      · intro _
        simp [Web.NewCourse, hv]

/-- Witness for C2: with a failing body bind against an empty database the
handler persists nothing and never reaches `CreateCourse`. -/
theorem NewCourse_directory_atomicity_witness :
    (Web.NewCourse (.error "bind failed") (fun _ => none)
      ⟨[], false⟩).db = ⟨[], false⟩ ∧
    (Web.NewCourse (.error "bind failed") (fun _ => none)
      ⟨[], false⟩).createCalled = false :=
  (NewCourse_directory_atomicity (.error "bind failed") (fun _ => none)
    ⟨[], false⟩).2
    (by rintro ⟨cr, s, d, h1, -⟩; exact Except.noConfusion h1)

/-- C3: every course-creation request with non-empty name, code and tag,
year at least the (positive) current year, provider github or gitlab, and
a directory id resolvable by the token of the caller — `GetDirectory`
succeeds, returning the directory with that (necessarily nonzero) id —
whose insert succeeds is answered 201 with a course whose directory id
equals the requested one. -/
theorem NewCourse_valid_request_creates
    (cr : Web.NewCourseRequest) (getClient : String → Option Web.SCMStub)
    (db : Web.CourseDB) (s : Web.SCMStub) (d : Scm.Directory)
    (currentYear : Nat)
    (hname : cr.name ≠ "") (hcode : cr.code ≠ "") (htag : cr.tag ≠ "")
    (hcy : 0 < currentYear) (hyear : currentYear ≤ cr.year)
    (hprov : cr.provider = "github" ∨ cr.provider = "gitlab")
    (hdir : cr.directoryID ≠ 0)
    (hclient : getClient cr.provider = some s)
    (hres : s.GetDirectory cr.directoryID = .ok d)
    (hid : d.id = cr.directoryID)
    (hins : db.insertFails = false) :
    ∃ c, (Web.NewCourse (.ok cr) getClient db).result = .jsonCourse 201 c ∧
      c.directoryID = cr.directoryID ∧ c.name = cr.name ∧ c.code = cr.code ∧
      c.year = cr.year ∧ c.tag = cr.tag ∧ c.provider = cr.provider ∧
      0 < c.id := by
  have hy : cr.year ≠ 0 := by omega
  have hv : cr.valid = true := by
    rcases hprov with h | h <;>
      simp [Web.NewCourseRequest.valid, hname, hcode, htag, hdir, hy, h]
  refine ⟨⟨db.courses.length + 1, cr.name, cr.code, cr.year, cr.tag,
    cr.provider, d.id⟩, ?_, hid, rfl, rfl, rfl, rfl, rfl, Nat.succ_pos _⟩
  simp [Web.NewCourse, hv, hclient, hres, Web.CourseDB.CreateCourse, hins]

/-- Witness for C3: the example request of the spec — DAT320, year 2024,
provider github, directory 42 exposed by the fake client as uis-dat320 —
yields 201 with directory id 42. -/
theorem NewCourse_valid_request_creates_witness :
    ∃ c, (Web.NewCourse
      (.ok ⟨"DAT320", "DAT320", 2024, "Fall", "github", 42⟩)
      (fun p => if p = "github" then
        some ⟨fun i => if i = 42 then .ok ⟨42, "uis-dat320", ""⟩
          else .error "directory not found"⟩ else none)
      ⟨[], false⟩).result = .jsonCourse 201 c ∧
      c.directoryID = 42 ∧ c.name = "DAT320" ∧ c.code = "DAT320" ∧
      c.year = 2024 ∧ c.tag = "Fall" ∧ c.provider = "github" ∧ 0 < c.id :=
  NewCourse_valid_request_creates
    ⟨"DAT320", "DAT320", 2024, "Fall", "github", 42⟩
    (fun p => if p = "github" then
      some ⟨fun i => if i = 42 then .ok ⟨42, "uis-dat320", ""⟩
        else .error "directory not found"⟩ else none)
    ⟨[], false⟩
    ⟨fun i => if i = 42 then .ok ⟨42, "uis-dat320", ""⟩
      else .error "directory not found"⟩
    ⟨42, "uis-dat320", ""⟩ 2024
    (by decide) (by decide) (by decide) (by decide) (by decide)
    (Or.inl rfl) (by decide) (by simp) (by simp) rfl rfl

/-- C4: every course-creation request missing a required field (empty
name, code or tag, zero year, zero directory id, or a provider other than
github and gitlab), or whose directory id the context client cannot
resolve, is answered with a 400 HTTPError or a propagated error, the
course table is unchanged and `CreateCourse` is never invoked. -/
theorem NewCourse_rejects_invalid
    (cr : Web.NewCourseRequest) (getClient : String → Option Web.SCMStub)
    (db : Web.CourseDB)
    (h : (cr.name = "" ∨ cr.code = "" ∨ cr.tag = "" ∨ cr.year = 0 ∨
          cr.directoryID = 0 ∨
          (cr.provider ≠ "github" ∧ cr.provider ≠ "gitlab")) ∨
         (∀ s, getClient cr.provider = some s →
           ∃ e, s.GetDirectory cr.directoryID = .error e)) :
    ((∃ m, (Web.NewCourse (.ok cr) getClient db).result = .httpError 400 m) ∨
     (∃ m, (Web.NewCourse (.ok cr) getClient db).result = .errorOut m)) ∧
    (Web.NewCourse (.ok cr) getClient db).db = db ∧
    (Web.NewCourse (.ok cr) getClient db).createCalled = false := by
  by_cases hv : cr.valid = true
  · have hok : ¬ (cr.name = "" ∨ cr.code = "" ∨ cr.tag = "" ∨ cr.year = 0 ∨
        cr.directoryID = 0 ∨
        (cr.provider ≠ "github" ∧ cr.provider ≠ "gitlab")) := by
      simp only [Web.NewCourseRequest.valid, Bool.and_eq_true, bne_iff_ne,
        ne_eq, Bool.or_eq_true, beq_iff_eq] at hv
      tauto
    cases hgc : getClient cr.provider with
    | none =>
      refine ⟨Or.inl ⟨"provider " ++ cr.provider ++ " not registered", ?_⟩,
        ?_, ?_⟩ <;> simp [Web.NewCourse, hv, hgc]
    | some s =>
      obtain ⟨e, he⟩ := (h.resolve_left hok) s hgc
      refine ⟨Or.inr ⟨e, ?_⟩, ?_, ?_⟩ <;>
        simp [Web.NewCourse, hv, hgc, he]
  · refine ⟨Or.inl ⟨"invalid payload", ?_⟩, ?_, ?_⟩ <;>
      simp [Web.NewCourse, hv]

/-- Witness for C4: a request with an empty name against an empty database
is rejected and nothing is persisted. -/
theorem NewCourse_rejects_invalid_witness :
    ((∃ m, (Web.NewCourse (.ok ⟨"", "DAT320", 2024, "Fall", "github", 42⟩)
        (fun _ => none) ⟨[], false⟩).result = .httpError 400 m) ∨
     (∃ m, (Web.NewCourse (.ok ⟨"", "DAT320", 2024, "Fall", "github", 42⟩)
        (fun _ => none) ⟨[], false⟩).result = .errorOut m)) ∧
    (Web.NewCourse (.ok ⟨"", "DAT320", 2024, "Fall", "github", 42⟩)
      (fun _ => none) ⟨[], false⟩).db = ⟨[], false⟩ ∧
    (Web.NewCourse (.ok ⟨"", "DAT320", 2024, "Fall", "github", 42⟩)
      (fun _ => none) ⟨[], false⟩).createCalled = false :=
  NewCourse_rejects_invalid ⟨"", "DAT320", 2024, "Fall", "github", 42⟩
    (fun _ => none) ⟨[], false⟩ (Or.inl (Or.inl rfl))
